import Mathlib

/-!
Verification of the model-builder state machine and analysis dispatcher of
`streamlit_app.py` (interactive rotor-dynamics solver).

The embedding models the numeric values handled by the program as exact
rationals (`ℚ`): every arithmetic operation the handlers perform (unit
conversion, density adjustment, RPM→rad/s conversion) is carried out here on
the same expressions the source writes, with the IEEE-754 double `np.pi`
represented by its exact rational value `npPi`.  Streamlit session state is
modelled by explicit state passing: each button handler becomes a function
from its form inputs and the current collection contents to the new
collection contents (or an error, for handlers that can raise).
-/

/-- Exact rational value of the IEEE-754 double `np.pi` (3.141592653589793...),
used by the source for all RPM → rad/s conversions. -/
def npPi : ℚ := 884279719003555 / 281474976710656

/-! ### Parameter list parsing

`parse_list` in the source is `np.array([float(x) for x in text.split(",")])`.
We model Python string `split` and the accepting fragment of the builtin
`float` on finite decimal/scientific literals. -/

/-- The whitespace characters stripped by Python `float` / `str.strip`. -/
def isPySpace (c : Char) : Bool :=
  c = ' ' ∨ c = '\t' ∨ c = '\n' ∨ c = '\r' ∨ c = '\x0b' ∨ c = '\x0c'

/-- Drop trailing whitespace characters. -/
def dropTrailingSpace (cs : List Char) : List Char :=
  (cs.reverse.dropWhile isPySpace).reverse

/-- Python `str.strip()` on a character list. -/
def trimChars (cs : List Char) : List Char :=
  dropTrailingSpace (cs.dropWhile isPySpace)

/-- Python `text.split(",")`: split on every comma, keeping empty tokens
(`"".split(",") == [""]`). -/
def splitOnComma : List Char → List (List Char)
  | [] => [[]]
  | c :: rest =>
    let r := splitOnComma rest
    if c = ',' then [] :: r
    else
      match r with
      | [] => [[c]]
      | t :: ts => (c :: t) :: ts

/-- Numeric value of a digit string (most significant first). -/
def digitsToNat (ds : List Char) : ℕ :=
  ds.foldl (fun a c => 10 * a + (c.toNat - 48)) 0

/-- Scale a rational mantissa by an integer power of ten, building the result
with the smart constructor `mkRat` (so the parser is fully evaluable). -/
def applyExp (m : ℚ) : ℤ → ℚ
  | .ofNat k => mkRat (m.num * ((10 ^ k : ℕ) : ℤ)) m.den
  | .negSucc k => mkRat m.num (m.den * 10 ^ (k + 1))

/-- Exponent part of a float literal: optional sign followed by at least one
digit. -/
def parseExpPart : List Char → Option ℤ
  | [] => none
  | '+' :: rest =>
    if rest ≠ [] ∧ rest.all Char.isDigit then some (digitsToNat rest : ℤ) else none
  | '-' :: rest =>
    if rest ≠ [] ∧ rest.all Char.isDigit then some (-(digitsToNat rest : ℤ)) else none
  | cs =>
    if cs.all Char.isDigit then some (digitsToNat cs : ℤ) else none

/-- Mantissa of a float literal: `digits`, `digits.digits`, `digits.` or
`.digits`, with at least one digit overall. -/
def parseMantissa (cs : List Char) : Option ℚ :=
  let intPart := cs.takeWhile Char.isDigit
  let rest := cs.dropWhile Char.isDigit
  match rest with
  | [] => if intPart ≠ [] then some (digitsToNat intPart : ℚ) else none
  | '.' :: rest2 =>
    let fracPart := rest2.takeWhile Char.isDigit
    let rest3 := rest2.dropWhile Char.isDigit
    if rest3 = [] ∧ (intPart ≠ [] ∨ fracPart ≠ []) then
      some (mkRat (digitsToNat (intPart ++ fracPart)) (10 ^ fracPart.length))
    else none
  | _ => none

/-- Unsigned float literal: mantissa with optional `e`/`E` exponent. -/
def pyFloatCore (cs : List Char) : Option ℚ :=
  let mantStr := cs.takeWhile (fun c => !(c == 'e' || c == 'E'))
  let rest := cs.dropWhile (fun c => !(c == 'e' || c == 'E'))
  match rest with
  | [] => parseMantissa mantStr
  | _ :: expStr =>
    match parseMantissa mantStr, parseExpPart expStr with
    | some m, some e => some (applyExp m e)
    | _, _ => none

/-- Optional leading sign. -/
def pyFloatSigned : List Char → Option ℚ
  | '+' :: rest => pyFloatCore rest
  | '-' :: rest => (pyFloatCore rest).map Neg.neg
  | cs => pyFloatCore cs

/-- Model of Python `float(token)` on the finite decimal / scientific literals
the application handles (sign, digits, optional fraction, optional exponent,
surrounding whitespace; `inf`/`nan`/underscored literals are outside the
modelled fragment).  The returned rational is the exact value of the literal.
`none` models the `ValueError` raised on a malformed token, e.g. `float("")`. -/
def pyFloat (cs : List Char) : Option ℚ :=
  pyFloatSigned (trimChars cs)

/-- The list comprehension `[float(x) for x in ...]`: every token must
convert, and the values appear in token order. -/
def parseTokens : List (List Char) → Option (List ℚ)
  | [] => some []
  | t :: ts =>
    match pyFloat t, parseTokens ts with
    | some v, some vs => some (v :: vs)
    | _, _ => none

/-- The source helper `parse_list`:
`np.array([float(x) for x in text.split(",")])`. -/
def parse_list (text : String) : Option (List ℚ) :=
  parseTokens (splitOnComma text.data)

/-! ### Data model

Elements as constructed by the handlers.  `rs.Material`, `rs.ShaftElement`,
`rs.BearingElement` and `rs.BearingFluidFlow` are external (`ross`) classes;
we record exactly the fields the handlers pass to them. -/

/-- Error kinds surfaced at an action boundary.  Python raises `ValueError`
both for a malformed `float` token (spec: `ParseError`) and for a violated
structural invariant in an external constructor (spec: `ValidationError`);
`indexError` models `IndexError` from indexing an empty array. -/
inductive AppError where
  | parseError
  | validationError
  | indexError
  deriving DecidableEq

/-- Fields of `rs.Material(name=..., rho=..., E=..., Poisson=...)`. -/
structure Material where
  name : String
  rho : ℚ
  E : ℚ
  Poisson : ℚ
  deriving DecidableEq

/-- Module-level `steel = rs.Material(name="Steel", rho=7850, E=2.059e11, Poisson=0.3)`. -/
def steel : Material :=
  ⟨"Steel", 7850, 205900000000, mkRat 3 10⟩

/-- The fields the shaft handler passes to `rs.ShaftElement`
(`L`, `idl`, `odl`, `material`, `n`). -/
structure ShaftElem where
  L : ℚ
  idl : ℚ
  odl : ℚ
  material : Material
  n : ℕ
  deriving DecidableEq

/-- A bearing/seal element, as one of the two constructions the
Bearings & Seals page performs. -/
inductive BearingElem where
  | linearScalar (n : ℕ) (kxx kyy kxy kyx cxx cyy cxy cyx : ℚ)
  | linearSpeedDep (n : ℕ) (kxx kyy kxy kyx cxx cyy cxy cyx : List ℚ)
      (frequency : List ℚ)
  | fluidFilm (n nz ntheta : ℕ) (length : ℚ) (omega : List ℚ)
      (p_in p_out radius_rotor radius_stator visc rho load : ℚ)
  deriving DecidableEq

/-! ### Shaft Spec Builder (`Add Shaft Element` handler, lines 53-68) -/

/-- Raw form fields of the shaft page (all lengths in mm, as entered). -/
structure ShaftInputs where
  n : ℕ
  L : ℚ
  od_mass : ℚ
  od_stiff : ℚ
  id_ : ℚ
  deriving DecidableEq

/-- The body of the `Add Shaft Element` handler: mm→m conversion, adjusted
density when the two outer diameters differ, and element construction. -/
def mkShaftElement (inp : ShaftInputs) : ShaftElem :=
  let L_m := inp.L / 1000
  let od_mass_m := inp.od_mass / 1000
  let od_stiff_m := inp.od_stiff / 1000
  let id_m := inp.id_ / 1000
  let mat : Material :=
    if inp.od_mass ≠ inp.od_stiff then
      ⟨"adj_" ++ toString inp.n, steel.rho * (od_mass_m / od_stiff_m) ^ 2,
        steel.E, steel.Poisson⟩
    else steel
  ⟨L_m, id_m, od_stiff_m, mat, inp.n⟩

/-- The `Add Shaft Element` button appends the constructed element. -/
def addShaftElement (inp : ShaftInputs) (store : List ShaftElem) : List ShaftElem :=
  store ++ [mkShaftElement inp]

/-! ### Bearing Spec Builder, linear path
(`Add Bearing Element` handler, lines 129-157) -/

/-- Raw form fields of the linear-bearing page. -/
structure LinearBearingInputs where
  n_b : ℕ
  kxx : String
  kyy : String
  kxy : String
  kyx : String
  cxx : String
  cyy : String
  cxy : String
  cyx : String
  freq_str : String

/-- Modelled from the spec: the length validation performed by the external
`rs.BearingElement` constructor (outside this repository) when it is given
coefficient arrays and a frequency array — "if a frequency sequence is
supplied, all eight coefficient sequences and the frequency sequence must
have equal length".  A violation raises, which the embedding reports as
`validationError`. -/
def mkBearingElementFreq (n : ℕ) (kxx kyy kxy kyx cxx cyy cxy cyx frequency : List ℚ) :
    Except AppError BearingElem :=
  if kxx.length = frequency.length ∧ kyy.length = frequency.length ∧
     kxy.length = frequency.length ∧ kyx.length = frequency.length ∧
     cxx.length = frequency.length ∧ cyy.length = frequency.length ∧
     cxy.length = frequency.length ∧ cyx.length = frequency.length then
    .ok (.linearSpeedDep n kxx kyy kxy kyx cxx cyy cxy cyx frequency)
  else .error .validationError

/-- The branch of the handler after the eight coefficient parses: the
`if freq_str.strip():` test selects the frequency-dependent construction
(RPM → rad/s via `* 2 * np.pi / 60`) or the scalar construction from the
first entry (`arr[0]`) of each parsed array. -/
def buildLinear (n : ℕ) (freq_str : String)
    (kxx kyy kxy kyx cxx cyy cxy cyx : List ℚ) : Except AppError BearingElem :=
  if trimChars freq_str.data ≠ [] then
    match parse_list freq_str with
    | some freqs_rpm =>
      mkBearingElementFreq n kxx kyy kxy kyx cxx cyy cxy cyx
        (freqs_rpm.map (fun x => x * 2 * npPi / 60))
    | none => .error .parseError
  else
    match kxx, kyy, kxy, kyx, cxx, cyy, cxy, cyx with
    | k1 :: _, k2 :: _, k3 :: _, k4 :: _, c1 :: _, c2 :: _, c3 :: _, c4 :: _ =>
      .ok (.linearScalar n k1 k2 k3 k4 c1 c2 c3 c4)
    | _, _, _, _, _, _, _, _ => .error .indexError

/-- The whole `Add Bearing Element` handler: parse the eight coefficient
strings (any `float` failure aborts the action), build the element, and only
then append it to the session bearing collection. -/
def addLinearBearing (inp : LinearBearingInputs) (store : List BearingElem) :
    Except AppError (List BearingElem) :=
  match parse_list inp.kxx, parse_list inp.kyy, parse_list inp.kxy, parse_list inp.kyx,
        parse_list inp.cxx, parse_list inp.cyy, parse_list inp.cxy, parse_list inp.cyx with
  | some ks1, some ks2, some ks3, some ks4, some cs1, some cs2, some cs3, some cs4 =>
    match buildLinear inp.n_b inp.freq_str ks1 ks2 ks3 ks4 cs1 cs2 cs3 cs4 with
    | .ok e => .ok (store ++ [e])
    | .error err => .error err
  | _, _, _, _, _, _, _, _ => .error .parseError

/-! ### Bearing Spec Builder, fluid-film path
(`Add Fluid Film Bearing` handler, lines 187-213) -/

/-- Raw form fields of the fluid-film page (lengths in mm, speeds as text in
RPM).  The widgets enforce `nz ≥ 2` and `ntheta ≥ 3` as input minima. -/
structure FluidFilmInputs where
  n_b : ℕ
  nz : ℕ
  ntheta : ℕ
  length : ℚ
  j_diam : ℚ
  s_diam : ℚ
  visc : ℚ
  rho : ℚ
  load : ℚ
  p_in : ℚ
  p_out : ℚ
  speed_str : String

/-- The `Add Fluid Film Bearing` handler: parse the speed list, convert
RPM → rad/s and mm → m, construct `rs.BearingFluidFlow` with the parameters
verbatim, and append it.  The handler itself performs no validation. -/
def addFluidFilmBearing (inp : FluidFilmInputs) (store : List BearingElem) :
    Except AppError (List BearingElem) :=
  match parse_list inp.speed_str with
  | none => .error .parseError
  | some speeds =>
    let omega := speeds.map (fun s => s * 2 * npPi / 60)
    let L := inp.length / 1000
    let r_rotor := inp.j_diam / 2 / 1000
    let r_stator := inp.s_diam / 2 / 1000
    .ok (store ++ [.fluidFilm inp.n_b inp.nz inp.ntheta L omega
      inp.p_in inp.p_out r_rotor r_stator inp.visc inp.rho inp.load])

/-! ### Element Store (append / indexed remove, lines 304-320 and 344-359)

The unbalance and probe collections are plain session lists mutated by
`append` on the add buttons and `pop(i)` on the per-row delete buttons. -/

/-- The dict `{"node": int(u_node), "mass": float(u_mass), "phase": float(u_phase)}`. -/
structure UnbalanceSpec where
  node : ℕ
  mass : ℚ
  phase : ℚ
  deriving DecidableEq

/-- The dict `{"node": int(p_node), "phase": float(p_phase)}`. -/
structure ProbeSpec where
  node : ℕ
  phase : ℚ
  deriving DecidableEq

/-- One user action on a collection: the add button (`list.append(x)`) or a
per-row delete button (`list.pop(i)`). -/
inductive StoreAction (α : Type) where
  | append (a : α)
  | removeAt (i : ℕ)

/-- Effect of one action on the collection.  `pop(i)` removes the entry at
index `i`; the rendered delete buttons only ever supply in-range indices
(out of range, `eraseIdx` leaves the list unchanged where Python would raise
`IndexError` — either way the collection is a sublist of what it was). -/
def applyAction (s : List α) : StoreAction α → List α
  | .append a => s ++ [a]
  | .removeAt i => s.eraseIdx i

/-- Replay a sequence of actions against an initially empty collection. -/
def applyActions (acts : List (StoreAction α)) : List α :=
  acts.foldl applyAction []

/-- The values of all appends of an action sequence, in append order. -/
def appendedValues : List (StoreAction α) → List α
  | [] => []
  | .append a :: r => a :: appendedValues r
  | .removeAt _ :: r => appendedValues r

/-! ### Unbalance Response run section (lines 322-386)

Three buttons carry the label `Run Unbalance Response`: the first guarded run
button (line 326, no key), the second guarded run button (line 362, key
`run_unbalance`), and the fallback error button (line 385, key `unbalance`)
which is reached in the `elif` when the second guard is false.  At most one
button reports pressed per script rerun. -/

/-- Which widget press triggered the rerun of the Unbalance section. -/
inductive UButton where
  | run1
  | run2
  | fallback
  | other
  deriving DecidableEq

/-- What one rerun of the run section does: the argument triples passed to
`rotor.run_unbalance_response` by each of the two guarded blocks (`none`
when the solver is not invoked), and whether the `st.error` message
("Add at least one unbalance mass first.") is shown. -/
structure RunOutcome where
  solver1 : Option (List ℕ × List ℚ × List ℚ)
  solver2 : Option (List ℕ × List ℚ × List ℚ)
  errorShown : Bool
  deriving DecidableEq

/-- The three argument lists extracted from the unbalance collection. -/
def unbalanceArgs (unb : List UnbalanceSpec) : List ℕ × List ℚ × List ℚ :=
  (unb.map (fun u => u.node), unb.map (fun u => u.mass), unb.map (fun u => u.phase))

/-- One rerun of the Unbalance run section.  Both solver calls are guarded by
`st.button(...) and st.session_state.unbalances`; the error message sits in
the `elif st.button(..., key="unbalance")` of the second block. -/
def runUnbalanceSection (pressed : UButton) (unb : List UnbalanceSpec) : RunOutcome :=
  let solver1 := if pressed = UButton.run1 ∧ unb ≠ [] then some (unbalanceArgs unb) else none
  let solver2 := if pressed = UButton.run2 ∧ unb ≠ [] then some (unbalanceArgs unb) else none
  let errorShown := if ¬ (pressed = UButton.run2 ∧ unb ≠ []) ∧ pressed = UButton.fallback
    then true else false
  ⟨solver1, solver2, errorShown⟩

/-! ### Analyses chain around the Unbalance branch (lines 289-298)

The statement `if "unbalances" not in st.session_state: ... = []` starts a
new `if`/`elif` chain at the same indentation as the analysis dispatch, so
`elif analysis == "Unbalance":` (and the following
`elif analysis == "Level 1 Stability":`) are chained to the session-state
membership test, not to the earlier analysis tests. -/

/-- The value of the analysis selectbox. -/
inductive AnalysisKind where
  | static
  | modal
  | ucs
  | unbalance
  | level1
  deriving DecidableEq

/-- The part of session state relevant to the chain: `none` models the
`unbalances` key being absent. -/
structure UnbSession where
  unbalances : Option (List UnbalanceSpec)
  deriving DecidableEq

/-- One execution of the `if "unbalances" not in st.session_state` chain:
returns the new session state and whether the body of the
`elif analysis == "Unbalance"` branch ran. -/
def unbalanceChainStep (analysis : AnalysisKind) (s : UnbSession) :
    UnbSession × Bool :=
  if s.unbalances = none then (⟨some []⟩, false)
  else if analysis = AnalysisKind.unbalance then (s, true)
  else (s, false)

/-! ### Level 1 Stability handler (lines 388-407) -/

/-- Raw form fields of the Level 1 section. -/
structure Level1Inputs where
  stiffness_min : ℚ
  stiffness_max : ℚ
  node_number : ℕ
  CompressorRPM : ℚ

/-- The call the handler makes: `rs.Rotor(..., rated_w=...)` followed by
`rotor1.run_level1(n=..., stiffness_range=(...))`. -/
structure Level1Call where
  rated_w : ℚ
  node : ℕ
  stiffness_range : ℚ × ℚ
  deriving DecidableEq

/-- The opaque result of the external stability solver, unpacked only as far
as the handler reads it (`level1.stiffness_range`). -/
structure Level1Result where
  stiffness_range : List ℚ

/-- The overlay trace added by `fig5.add_trace(go.Scatter(...))`. -/
structure OverlayTrace where
  xs : List ℚ
  ys : List ℚ

/-- The `Start level 1 analysis` handler: rebuild the rotor with
`rated_w = CompressorRPM * np.pi / 30`, run the solver, then add a constant
line at `api_limit = 0.1` spanning `level1.stiffness_range`
(`y=[api_limit]*len(level1.stiffness_range)`). -/
def runLevel1Handler (inp : Level1Inputs) (solver : Level1Call → Level1Result) :
    Level1Call × OverlayTrace :=
  let call : Level1Call := ⟨inp.CompressorRPM * npPi / 30, inp.node_number,
    (inp.stiffness_min, inp.stiffness_max)⟩
  let level1 := solver call
  let api_limit : ℚ := mkRat 1 10
  (call, ⟨level1.stiffness_range,
    List.replicate level1.stiffness_range.length api_limit⟩)

/-! ### Store lemmas -/

/-- Any run of the store keeps the contents a sublist (order-preserving
selection) of `t ++` the values appended during the run. -/
theorem foldl_applyAction_sublist {α : Type} (acts : List (StoreAction α)) :
    ∀ s t : List α, s.Sublist t →
      (acts.foldl applyAction s).Sublist (t ++ appendedValues acts) := by
  induction acts with
  | nil =>
    intro s t h
    simpa [appendedValues] using h
  | cons a r ih =>
    intro s t h
    cases a with
    | append v =>
      have h2 : (s ++ [v]).Sublist (t ++ [v]) := h.append (List.Sublist.refl _)
      have h3 := ih (s ++ [v]) (t ++ [v]) h2
      simpa [appendedValues, applyAction, List.append_assoc] using h3
    | removeAt i =>
      have h2 : (s.eraseIdx i).Sublist t := (List.eraseIdx_sublist s i).trans h
      have h3 := ih (s.eraseIdx i) t h2
      simpa [appendedValues, applyAction] using h3

/-- Replaying only appends recovers exactly the appended values. -/
theorem foldl_append_actions {α : Type} (l : List α) :
    ∀ s : List α, (l.map StoreAction.append).foldl applyAction s = s ++ l := by
  induction l with
  | nil => intro s; simp [applyActions]
  | cons a r ih =>
    intro s
    simp only [List.map_cons, List.foldl_cons, applyAction, ih (s ++ [a])]
    simp

/-- C3: for every finite sequence of append and indexed-remove actions on a
collection, the resulting snapshot equals the replay of some subsequence of
the appended values — the surviving appends — in their original append order;
concretely, removing index 1 from a three-element probe list
`[P0, P1, P2]` yields `[P0, P2]` with relative order preserved. -/
theorem claim_C3 :
    (∀ (α : Type) (acts : List (StoreAction α)), ∃ surviving : List α,
        surviving.Sublist (appendedValues acts) ∧
        applyActions (surviving.map StoreAction.append) = applyActions acts) ∧
    ∀ p0 p1 p2 : ProbeSpec,
      applyActions [StoreAction.append p0, StoreAction.append p1,
        StoreAction.append p2, StoreAction.removeAt 1] = [p0, p2] := by
  constructor
  · intro α acts
    refine ⟨applyActions acts, ?_, ?_⟩
    · have h := foldl_applyAction_sublist acts [] [] (List.Sublist.refl [])
      simpa [applyActions] using h
    · have h := foldl_append_actions (applyActions acts) []
      simpa [applyActions] using h
  · intro p0 p1 p2
    rfl

/-! ### Parser lemmas -/

/-- A successful token-list parse is the pointwise successful `float` of each
token, in order. -/
theorem parseTokens_eq_some_iff :
    ∀ (ts : List (List Char)) (vs : List ℚ),
      parseTokens ts = some vs ↔
        List.Forall₂ (fun t v => pyFloat t = some v) ts vs := by
  intro ts
  induction ts with
  | nil =>
    intro vs
    constructor
    · intro h
      simp only [parseTokens] at h
      cases h
      exact List.Forall₂.nil
    · intro h
      cases h
      rfl
  | cons t ts ih =>
    intro vs
    constructor
    · intro h
      simp only [parseTokens] at h
      cases hf : pyFloat t with
      | none => rw [hf] at h; cases h
      | some v =>
        rw [hf] at h
        cases hp : parseTokens ts with
        | none => rw [hp] at h; cases h
        | some ws =>
          rw [hp] at h
          cases h
          exact List.Forall₂.cons hf ((ih ws).mp hp)
    · intro h
      cases h with
      | cons hv hrest =>
        rename_i v ws
        simp only [parseTokens, hv, (ih ws).mpr hrest]

/-- A token-list parse fails exactly when some token fails to convert. -/
theorem parseTokens_eq_none_iff :
    ∀ ts : List (List Char),
      parseTokens ts = none ↔ ∃ t ∈ ts, pyFloat t = none := by
  intro ts
  induction ts with
  | nil => simp [parseTokens]
  | cons t ts ih =>
    cases hf : pyFloat t with
    | none =>
      simp only [parseTokens, hf]
      constructor
      · intro _
        exact ⟨t, List.mem_cons_self t ts, hf⟩
      · intro _
        trivial
    | some v =>
      cases hp : parseTokens ts with
      | none =>
        simp only [parseTokens, hf, hp]
        constructor
        · intro _
          rcases (ih).mp hp with ⟨u, hu, hun⟩
          exact ⟨u, List.mem_cons_of_mem t hu, hun⟩
        · intro _
          trivial
      | some ws =>
        simp only [parseTokens, hf, hp]
        constructor
        · intro h
          cases h
        · rintro ⟨u, hu, hun⟩
          rcases List.mem_cons.mp hu with rfl | hu2
          · rw [hf] at hun
            cases hun
          · have h2 := ih.mpr ⟨u, hu2, hun⟩
            rw [hp] at h2
            cases h2

/-- Successful parses have one value per token. -/
theorem parseTokens_length (ts : List (List Char)) (vs : List ℚ)
    (h : parseTokens ts = some vs) : vs.length = ts.length :=
  List.Forall₂.length_eq ((parseTokens_eq_some_iff ts vs).mp h) |>.symm

/-- Python `split` never returns an empty token list. -/
theorem splitOnComma_ne_nil (cs : List Char) : splitOnComma cs ≠ [] := by
  cases cs with
  | nil => simp [splitOnComma]
  | cons c rest =>
    simp only [splitOnComma]
    by_cases h : c = ','
    · simp [h]
    · simp only [h, if_false]
      cases splitOnComma rest <;> simp

/-- A successful `parse_list` result is non-empty. -/
theorem parse_list_some_ne_nil (s : String) (vs : List ℚ)
    (h : parse_list s = some vs) : vs ≠ [] := by
  intro hnil
  subst hnil
  have hlen := parseTokens_length _ _ h
  exact splitOnComma_ne_nil s.data (List.length_eq_zero.mp hlen.symm)

/-- C4: the parameter list parser splits the text on commas and converts each
token with `float`, returning the values in token order; it fails when any
token (including an empty one) is malformed.  Concretely,
`"1e7,2e7,3e7,4e7,5e7"` parses to `[10^7, 2·10^7, 3·10^7, 4·10^7, 5·10^7]`
and `"1e7,,3e7"` fails (the middle token is empty). -/
theorem claim_C4 :
    (∀ (s : String) (vs : List ℚ),
        parse_list s = some vs ↔
          List.Forall₂ (fun t v => pyFloat t = some v) (splitOnComma s.data) vs) ∧
    (∀ s : String,
        parse_list s = none ↔ ∃ t ∈ splitOnComma s.data, pyFloat t = none) ∧
    parse_list "1e7,2e7,3e7,4e7,5e7" =
      some [10000000, 20000000, 30000000, 40000000, 50000000] ∧
    parse_list "1e7,,3e7" = none := by
  refine ⟨?_, ?_, by decide, by decide⟩
  · intro s vs
    exact parseTokens_eq_some_iff (splitOnComma s.data) vs
  · intro s
    exact parseTokens_eq_none_iff (splitOnComma s.data)

/-! ### Shaft density adjustment (C6) -/

/-- C6: when the mass outer diameter differs from the stiffness outer
diameter, the shaft builder creates a material with density
`rho_base * (OD_mass / OD_stiff)^2` (the mm→m conversion cancels in the
ratio); with `OD_mass = 120`, `OD_stiff = 100` and base density 7850 this is
exactly 11304 (so certainly within 0.5%); when the two diameters are equal
the unmodified base material `steel` is reused. -/
theorem claim_C6 (inp : ShaftInputs)
    (hne : inp.od_mass ≠ inp.od_stiff) (hnz : inp.od_stiff ≠ 0) :
    (mkShaftElement inp).material.rho =
      steel.rho * (inp.od_mass / inp.od_stiff) ^ 2 ∧
    (∀ inp2 : ShaftInputs, inp2.od_mass = inp2.od_stiff →
        (mkShaftElement inp2).material = steel) ∧
    (mkShaftElement ⟨0, 50, 120, 100, 0⟩).material.rho = 11304 := by
  refine ⟨?_, ?_, ?_⟩
  · have hratio : inp.od_mass / 1000 / (inp.od_stiff / 1000) =
        inp.od_mass / inp.od_stiff := by
      rw [div_div_div_cancel_right₀]
      norm_num
    simp only [mkShaftElement, if_pos hne, hratio]
  · intro inp2 h2
    simp [mkShaftElement, h2]
  · norm_num [mkShaftElement, steel]

/-- Witness for C6 at the spec's concrete input (adjusted-density case with
`OD_mass = 120`, `OD_stiff = 100`, and the equal-diameter case). -/
theorem claim_C6_witness :
    (mkShaftElement ⟨0, 50, 120, 100, 0⟩).material.rho =
      steel.rho * ((120 : ℚ) / 100) ^ 2 ∧
    (mkShaftElement ⟨0, 50, 120, 100, 0⟩).material.rho = 11304 ∧
    (mkShaftElement ⟨0, 50, 100, 100, 0⟩).material = steel := by
  have h := claim_C6 ⟨0, 50, 120, 100, 0⟩ (by norm_num) (by norm_num)
  exact ⟨h.1, h.2.2, h.2.1 ⟨0, 50, 100, 100, 0⟩ rfl⟩

/-! ### Level 1 Stability dispatch (C9) -/

/-- C9: the Level 1 handler rebuilds the model with the rated speed converted
RPM → rad/s by multiplication with `np.pi / 30` before the solver runs, and
overlays a constant line at amplification-factor value 0.1 spanning the
solver's returned stiffness range — the overlay's ordinates are `0.1`
replicated to the length of that range, for any solver result, so the
threshold is presentational and not computed by the solver. -/
theorem claim_C9 (inp : Level1Inputs) (solver : Level1Call → Level1Result) :
    (runLevel1Handler inp solver).1.rated_w = inp.CompressorRPM * npPi / 30 ∧
    (runLevel1Handler inp solver).2.xs =
      (solver (runLevel1Handler inp solver).1).stiffness_range ∧
    (runLevel1Handler inp solver).2.ys =
      List.replicate
        (solver (runLevel1Handler inp solver).1).stiffness_range.length
        (mkRat 1 10) ∧
    (mkRat 1 10 : ℚ) = 1 / 10 ∧
    ∀ y ∈ (runLevel1Handler inp solver).2.ys, y = mkRat 1 10 := by
  refine ⟨rfl, rfl, rfl, by norm_num [Rat.mkRat_eq_div], ?_⟩
  intro y hy
  exact List.eq_of_mem_replicate hy

/-! ### Unbalance branch gating (C10) -/

/-- C10: when the `unbalances` key is absent from session state, the chain
only initializes the collection to the empty list and the Unbalance branch
does not execute on that action; the branch executes exactly when the key is
already present and the Unbalance analysis is selected. -/
theorem claim_C10 (analysis : AnalysisKind) (s : UnbSession) :
    (s.unbalances = none →
      unbalanceChainStep analysis s = (⟨some []⟩, false)) ∧
    ((unbalanceChainStep analysis s).2 = true ↔
      s.unbalances ≠ none ∧ analysis = AnalysisKind.unbalance) := by
  constructor
  · intro h
    simp [unbalanceChainStep, h]
  · by_cases h : s.unbalances = none
    · simp [unbalanceChainStep, h]
    · by_cases h2 : analysis = AnalysisKind.unbalance <;>
        simp [unbalanceChainStep, h, h2]

/-- Witness for C10: a fresh session (key absent) only gets initialized, and
a session with the key present runs the branch under the Unbalance
selection. -/
theorem claim_C10_witness :
    unbalanceChainStep AnalysisKind.unbalance ⟨none⟩ = (⟨some []⟩, false) ∧
    (unbalanceChainStep AnalysisKind.unbalance ⟨some []⟩).2 = true :=
  ⟨(claim_C10 AnalysisKind.unbalance ⟨none⟩).1 rfl,
    (claim_C10 AnalysisKind.unbalance ⟨some []⟩).2.mpr ⟨by simp, rfl⟩⟩

/-! ### Unbalance Response run guards (C2, corrected) -/

/-- C2 counterexample: with an empty unbalance list, pressing either guarded
run button invokes no solver but also reports no error at all — the claimed
`ValidationError` does not occur on these presses (the error message is tied
to the separate fallback button). -/
theorem claim_C2_counterexample :
    runUnbalanceSection UButton.run1 [] = ⟨none, none, false⟩ ∧
    runUnbalanceSection UButton.run2 [] = ⟨none, none, false⟩ := by
  constructor <;> rfl

/-- C2 (amended): with an empty unbalance list neither run button invokes the
delegated solver, and the solver is only ever invoked with a non-empty list;
but the guarded run buttons fail silently — the error message is shown
exactly when the third, fallback button is pressed (whatever the list). -/
theorem claim_C2_amended (pressed : UButton) (unb : List UnbalanceSpec) :
    (unb = [] → (runUnbalanceSection pressed unb).solver1 = none ∧
      (runUnbalanceSection pressed unb).solver2 = none) ∧
    ((runUnbalanceSection pressed unb).solver1 ≠ none ∨
      (runUnbalanceSection pressed unb).solver2 ≠ none → unb ≠ []) ∧
    ((runUnbalanceSection pressed unb).errorShown = true ↔
      pressed = UButton.fallback) ∧
    (pressed = UButton.run1 ∧ unb ≠ [] →
      (runUnbalanceSection pressed unb).solver1 = some (unbalanceArgs unb)) ∧
    (pressed = UButton.run2 ∧ unb ≠ [] →
      (runUnbalanceSection pressed unb).solver2 = some (unbalanceArgs unb)) := by
  refine ⟨?_, ?_, ?_, ?_, ?_⟩
  · intro h
    subst h
    constructor <;> simp [runUnbalanceSection]
  · intro h hnil
    subst hnil
    rcases h with h | h <;> simp [runUnbalanceSection] at h
  · cases pressed <;> by_cases h : unb = [] <;>
      simp [runUnbalanceSection, h]
  · intro h
    simp [runUnbalanceSection, h.1, h.2]
  · intro h
    simp [runUnbalanceSection, h.1, h.2]

/-- Witness for the amended C2 at concrete inputs: first run button pressed
with the empty list (silent no-op), and fallback button pressed (error
message shown). -/
theorem claim_C2_amended_witness :
    (runUnbalanceSection UButton.run1 []).solver1 = none ∧
    (runUnbalanceSection UButton.fallback []).errorShown = true :=
  ⟨((claim_C2_amended UButton.run1 []).1 rfl).1,
    (claim_C2_amended UButton.fallback []).2.2.1.mpr rfl⟩

/-! ### Linear bearing path (C1, C7, C8) -/

/-- After the eight successful coefficient parses, the handler is the
build-then-append step. -/
theorem addLinearBearing_parsed (inp : LinearBearingInputs) (store : List BearingElem)
    (ks1 ks2 ks3 ks4 cs1 cs2 cs3 cs4 : List ℚ)
    (h1 : parse_list inp.kxx = some ks1) (h2 : parse_list inp.kyy = some ks2)
    (h3 : parse_list inp.kxy = some ks3) (h4 : parse_list inp.kyx = some ks4)
    (h5 : parse_list inp.cxx = some cs1) (h6 : parse_list inp.cyy = some cs2)
    (h7 : parse_list inp.cxy = some cs3) (h8 : parse_list inp.cyx = some cs4) :
    addLinearBearing inp store =
      match buildLinear inp.n_b inp.freq_str ks1 ks2 ks3 ks4 cs1 cs2 cs3 cs4 with
      | .ok e => .ok (store ++ [e])
      | .error err => .error err := by
  unfold addLinearBearing
  rw [h1, h2, h3, h4, h5, h6, h7, h8]

/-- With a non-empty, successfully parsed frequency string, the build step is
the external array constructor applied to the RPM-converted frequencies. -/
theorem buildLinear_freq (n : ℕ) (freq_str : String)
    (ks1 ks2 ks3 ks4 cs1 cs2 cs3 cs4 fs : List ℚ)
    (hf : parse_list freq_str = some fs) (hne : trimChars freq_str.data ≠ []) :
    buildLinear n freq_str ks1 ks2 ks3 ks4 cs1 cs2 cs3 cs4 =
      mkBearingElementFreq n ks1 ks2 ks3 ks4 cs1 cs2 cs3 cs4
        (fs.map (fun x => x * 2 * npPi / 60)) := by
  unfold buildLinear
  rw [if_pos hne, hf]

/-- C1: for a linear-bearing add with a non-empty frequency list, the action
validates the equal-length invariant between the frequency sequence and all
eight coefficient sequences: when every length matches it succeeds and
appends the speed-dependent element, and when any length differs it fails
with the validation error before anything is appended. -/
theorem claim_C1 (inp : LinearBearingInputs) (store : List BearingElem)
    (ks1 ks2 ks3 ks4 cs1 cs2 cs3 cs4 fs : List ℚ)
    (h1 : parse_list inp.kxx = some ks1) (h2 : parse_list inp.kyy = some ks2)
    (h3 : parse_list inp.kxy = some ks3) (h4 : parse_list inp.kyx = some ks4)
    (h5 : parse_list inp.cxx = some cs1) (h6 : parse_list inp.cyy = some cs2)
    (h7 : parse_list inp.cxy = some cs3) (h8 : parse_list inp.cyx = some cs4)
    (hf : parse_list inp.freq_str = some fs)
    (hne : trimChars inp.freq_str.data ≠ []) :
    (ks1.length = fs.length ∧ ks2.length = fs.length ∧ ks3.length = fs.length ∧
     ks4.length = fs.length ∧ cs1.length = fs.length ∧ cs2.length = fs.length ∧
     cs3.length = fs.length ∧ cs4.length = fs.length →
      addLinearBearing inp store = .ok (store ++
        [.linearSpeedDep inp.n_b ks1 ks2 ks3 ks4 cs1 cs2 cs3 cs4
          (fs.map (fun x => x * 2 * npPi / 60))])) ∧
    (¬ (ks1.length = fs.length ∧ ks2.length = fs.length ∧ ks3.length = fs.length ∧
        ks4.length = fs.length ∧ cs1.length = fs.length ∧ cs2.length = fs.length ∧
        cs3.length = fs.length ∧ cs4.length = fs.length) →
      addLinearBearing inp store = .error .validationError) := by
  rw [addLinearBearing_parsed inp store ks1 ks2 ks3 ks4 cs1 cs2 cs3 cs4
      h1 h2 h3 h4 h5 h6 h7 h8,
    buildLinear_freq inp.n_b inp.freq_str ks1 ks2 ks3 ks4 cs1 cs2 cs3 cs4 fs hf hne]
  unfold mkBearingElementFreq
  constructor
  · intro hlen
    rw [if_pos (by simpa [List.length_map] using hlen)]
  · intro hlen
    rw [if_neg (by simpa [List.length_map] using hlen)]

/-- The concrete linear-bearing inputs of the spec example: the defaults of
the form, five entries per list. -/
def inpC1good : LinearBearingInputs :=
  ⟨0, "1e7,2e7,3e7,4e7,5e7", "1e7,2e7,3e7,4e7,5e7", "0,0,0,0,0", "0,0,0,0,0",
    "1e3,2e3,3e3,4e3,5e3", "1e3,2e3,3e3,4e3,5e3", "0,0,0,0,0", "0,0,0,0,0",
    "5000,10000,15000,20000,25000"⟩

/-- The spec's failing example: a four-element `kxy` list against a
five-element frequency list. -/
def inpC1bad : LinearBearingInputs :=
  ⟨0, "1e7,2e7,3e7,4e7,5e7", "1e7,2e7,3e7,4e7,5e7", "0,0,0,0", "0,0,0,0,0",
    "1e3,2e3,3e3,4e3,5e3", "1e3,2e3,3e3,4e3,5e3", "0,0,0,0,0", "0,0,0,0,0",
    "5000,10000,15000,20000,25000"⟩

/-- Witness for C1: all nine lengths equal succeeds and appends one element;
the four-element `kxy` fails with the validation error. -/
theorem claim_C1_witness :
    (∃ b, addLinearBearing inpC1good [] = .ok [b]) ∧
    addLinearBearing inpC1bad [] = .error .validationError := by
  constructor
  · have h := (claim_C1 inpC1good []
      [10000000, 20000000, 30000000, 40000000, 50000000]
      [10000000, 20000000, 30000000, 40000000, 50000000]
      [0, 0, 0, 0, 0] [0, 0, 0, 0, 0]
      [1000, 2000, 3000, 4000, 5000] [1000, 2000, 3000, 4000, 5000]
      [0, 0, 0, 0, 0] [0, 0, 0, 0, 0]
      [5000, 10000, 15000, 20000, 25000]
      (by decide) (by decide) (by decide) (by decide) (by decide) (by decide)
      (by decide) (by decide) (by decide) (by decide)).1 (by decide)
    exact ⟨_, h⟩
  · exact (claim_C1 inpC1bad []
      [10000000, 20000000, 30000000, 40000000, 50000000]
      [10000000, 20000000, 30000000, 40000000, 50000000]
      [0, 0, 0, 0] [0, 0, 0, 0, 0]
      [1000, 2000, 3000, 4000, 5000] [1000, 2000, 3000, 4000, 5000]
      [0, 0, 0, 0, 0] [0, 0, 0, 0, 0]
      [5000, 10000, 15000, 20000, 25000]
      (by decide) (by decide) (by decide) (by decide) (by decide) (by decide)
      (by decide) (by decide) (by decide) (by decide)).2 (by decide)

/-- C7: every bearing add action is atomic — on success exactly one produced
element is appended to the bearing collection, and on any failure (a parse
error in any of the nine lists, the length validation, or indexing) the
action yields an error and no store is produced at all, so the collection is
left exactly as it was. -/
theorem claim_C7 (inp : LinearBearingInputs) (finp : FluidFilmInputs)
    (store : List BearingElem) :
    ((∃ e, addLinearBearing inp store = .error e) ∨
      ∃ b, addLinearBearing inp store = .ok (store ++ [b])) ∧
    ((∃ e, addFluidFilmBearing finp store = .error e) ∨
      ∃ b, addFluidFilmBearing finp store = .ok (store ++ [b])) := by
  constructor
  · unfold addLinearBearing
    split
    · split
      · rename_i e heq
        exact Or.inr ⟨e, rfl⟩
      · rename_i err heq
        exact Or.inl ⟨err, rfl⟩
    · exact Or.inl ⟨.parseError, rfl⟩
  · unfold addFluidFilmBearing
    split
    · exact Or.inl ⟨.parseError, rfl⟩
    · exact Or.inr ⟨_, rfl⟩

/-- Inputs with an empty frequency string and a two-token `kxx` list (all
other coefficients a single token). -/
def inpC8 : LinearBearingInputs :=
  ⟨0, "1e7,2e7", "0", "0", "0", "0", "0", "0", "0", ""⟩

/-- C8 counterexample: with the frequency text empty, a coefficient field
holding two tokens is not rejected — the add action succeeds, silently using
only the first value, so the builder does not require exactly one token per
coefficient field. -/
theorem claim_C8_counterexample :
    addLinearBearing inpC8 [] =
      .ok [.linearScalar 0 10000000 0 0 0 0 0 0 0] := by
  rfl

/-- C8 (amended): with an empty (stripped) frequency text, the builder takes
the first entry (`arr[0]`) of each successfully parsed coefficient array and
produces the scalar element from those eight first values; it does not
require exactly one token per field — entries beyond the first are ignored. -/
theorem claim_C8_amended (inp : LinearBearingInputs) (store : List BearingElem)
    (ks1 ks2 ks3 ks4 cs1 cs2 cs3 cs4 : List ℚ)
    (h1 : parse_list inp.kxx = some ks1) (h2 : parse_list inp.kyy = some ks2)
    (h3 : parse_list inp.kxy = some ks3) (h4 : parse_list inp.kyx = some ks4)
    (h5 : parse_list inp.cxx = some cs1) (h6 : parse_list inp.cyy = some cs2)
    (h7 : parse_list inp.cxy = some cs3) (h8 : parse_list inp.cyx = some cs4)
    (hempty : trimChars inp.freq_str.data = []) :
    addLinearBearing inp store = .ok (store ++
      [.linearScalar inp.n_b ks1.headI ks2.headI ks3.headI ks4.headI
        cs1.headI cs2.headI cs3.headI cs4.headI]) := by
  obtain ⟨k1, t1, rfl⟩ := List.exists_cons_of_ne_nil (parse_list_some_ne_nil _ _ h1)
  obtain ⟨k2, t2, rfl⟩ := List.exists_cons_of_ne_nil (parse_list_some_ne_nil _ _ h2)
  obtain ⟨k3, t3, rfl⟩ := List.exists_cons_of_ne_nil (parse_list_some_ne_nil _ _ h3)
  obtain ⟨k4, t4, rfl⟩ := List.exists_cons_of_ne_nil (parse_list_some_ne_nil _ _ h4)
  obtain ⟨c1, u1, rfl⟩ := List.exists_cons_of_ne_nil (parse_list_some_ne_nil _ _ h5)
  obtain ⟨c2, u2, rfl⟩ := List.exists_cons_of_ne_nil (parse_list_some_ne_nil _ _ h6)
  obtain ⟨c3, u3, rfl⟩ := List.exists_cons_of_ne_nil (parse_list_some_ne_nil _ _ h7)
  obtain ⟨c4, u4, rfl⟩ := List.exists_cons_of_ne_nil (parse_list_some_ne_nil _ _ h8)
  rw [addLinearBearing_parsed inp store _ _ _ _ _ _ _ _ h1 h2 h3 h4 h5 h6 h7 h8]
  unfold buildLinear
  rw [if_neg (by simp [hempty])]
  rfl

/-- Witness for the amended C8: the two-token `kxx` input produces the scalar
element from the first values. -/
theorem claim_C8_amended_witness :
    trimChars inpC8.freq_str.data = [] ∧
    addLinearBearing inpC8 [] =
      .ok ([] ++ [.linearScalar 0 ([(10000000 : ℚ), 20000000].headI)
        ([(0 : ℚ)].headI) ([(0 : ℚ)].headI) ([(0 : ℚ)].headI) ([(0 : ℚ)].headI)
        ([(0 : ℚ)].headI) ([(0 : ℚ)].headI) ([(0 : ℚ)].headI)]) := by
  refine ⟨by decide, ?_⟩
  exact claim_C8_amended inpC8 [] [10000000, 20000000] [0] [0] [0] [0] [0] [0] [0]
    (by decide) (by decide) (by decide) (by decide) (by decide) (by decide)
    (by decide) (by decide) (by decide)

/-! ### Fluid-film path (C5, corrected) -/

/-- Fluid-film inputs with stator diameter 90 mm strictly below the journal
diameter 100 mm (`ntheta = 21`, oil viscosity 0.1, density 860, load 525,
speeds `"500,1000"` RPM). -/
def inpC5 : FluidFilmInputs :=
  ⟨0, 30, 21, 30, 100, 90, mkRat 1 10, 860, 525, 0, 0, "500,1000"⟩

/-- C5 counterexample: the stator radius is strictly below the rotor radius,
yet the add action performs no validation — it succeeds and appends the
element (with the usual RPM → rad/s and mm → m conversions) instead of
failing with a validation error. -/
theorem claim_C5_counterexample :
    inpC5.s_diam / 2 / 1000 < inpC5.j_diam / 2 / 1000 ∧
    addFluidFilmBearing inpC5 [] =
      .ok [.fluidFilm 0 30 21 (inpC5.length / 1000)
        ([(500 : ℚ), 1000].map (fun s => s * 2 * npPi / 60))
        0 0 (inpC5.j_diam / 2 / 1000) (inpC5.s_diam / 2 / 1000)
        (mkRat 1 10) 860 525] := by
  constructor
  · show (90 : ℚ) / 2 / 1000 < (100 : ℚ) / 2 / 1000
    norm_num
  · have hp : parse_list inpC5.speed_str = some [500, 1000] := by decide
    unfold addFluidFilmBearing
    rw [hp]
    rfl

/-- C5 (amended): the fluid-film add handler itself performs no validation:
`ntheta ≥ 3` is imposed only by the input widget's minimum, no stator/rotor
radius ordering is checked anywhere, and whenever the speed list parses the
handler converts the speeds RPM → rad/s, the declared lengths mm → m, and
appends the constructed element — even when stator radius ≤ rotor radius. -/
theorem claim_C5_amended (inp : FluidFilmInputs) (store : List BearingElem)
    (speeds : List ℚ) (hp : parse_list inp.speed_str = some speeds) :
    addFluidFilmBearing inp store = .ok (store ++
      [.fluidFilm inp.n_b inp.nz inp.ntheta (inp.length / 1000)
        (speeds.map (fun s => s * 2 * npPi / 60)) inp.p_in inp.p_out
        (inp.j_diam / 2 / 1000) (inp.s_diam / 2 / 1000)
        inp.visc inp.rho inp.load]) := by
  unfold addFluidFilmBearing
  rw [hp]

/-- Witness for the amended C5 at the concrete radius-violating input. -/
theorem claim_C5_amended_witness :
    addFluidFilmBearing inpC5 [] = .ok ([] ++
      [.fluidFilm 0 30 21 (inpC5.length / 1000)
        ([(500 : ℚ), 1000].map (fun s => s * 2 * npPi / 60))
        0 0 (inpC5.j_diam / 2 / 1000) (inpC5.s_diam / 2 / 1000)
        (mkRat 1 10) 860 525]) :=
  claim_C5_amended inpC5 [] [500, 1000] (by decide)
